import Mathlib

/-!
Verification of the live-football tracking core in
`src/base_classes/football.py` (classes `Football` and `FootballLive`).

The Python code is shallowly embedded as executable Lean definitions:
* `Football.extract_game_details` models the football-specific part of
  `Football._extract_game_details` (lines 74-149): scoring-event detection,
  timeout defaults, possession indicator and period text.
* `FootballLive.check_scoring_events` models
  `FootballLive._check_scoring_events` (lines 188-229).
* `FootballLive.reconcile` models the candidate-list reconciliation block of
  `FootballLive.update` (lines 430-468).
* `FootballLive.applyRotation` models the game-switching block (lines 479-483).
* `FootballLive.updateTick` models one full call of `FootballLive.update`
  (lines 325-483), with the external feed fetch abstracted as an
  `Option (List Game)` input (`none` = fetch failure / data without events).

Python floats used as timestamps are modelled as `Int`; Python dicts used as
the per-game scoring tracker are modelled as association lists with
lookup/insert/erase semantics; Python string operations (`.lower()`,
`.upper()`, substring `in`, `split`) are modelled character-wise.
-/

namespace LEDMatrix

/-! ### Character-level string helpers (Python `str.lower`, `str.upper`, `in`) -/

/-- Python `s.lower()`, character-wise (as for the ASCII feed text). -/
def lowerStr (s : String) : String := String.mk (s.data.map Char.toLower)

/-- Python `s.upper()`, character-wise. -/
def upperStr (s : String) : String := String.mk (s.data.map Char.toUpper)

/-- `isPrefB pat l` decides whether `pat` is a leading segment of `l`. -/
def isPrefB : List Char → List Char → Bool
  | [], _ => true
  | _ :: _, [] => false
  | a :: as, b :: bs => a == b && isPrefB as bs

/-- `hasSub pat l` decides whether `pat` occurs contiguously inside `l`. -/
def hasSub (pat : List Char) : List Char → Bool
  | [] => isPrefB pat []
  | b :: t => isPrefB pat (b :: t) || hasSub pat t

/-- Python `pat in hay` for strings (substring containment). -/
def strHas (hay pat : String) : Bool := hasSub pat.data hay.data

/-! ### Feed-event model (the fields of the ESPN event record that
`Football._extract_game_details` reads) -/

/-- The `situation` sub-record of a competition (present only for some
events); `none` in an `Option` field models the key being absent from the
feed JSON. -/
structure Situation where
  shortDownDistanceText : Option String
  isRedZone : Option Bool
  possession : Option String
  homeTimeouts : Option Int
  awayTimeouts : Option Int
deriving Repr, DecidableEq

/-- One raw feed event, restricted to the fields the football-specific
extraction code reads.  `state`, `statusName`, `detail`, `shortDetail` come
from `status["type"]`; `situation = none` models a missing or empty situation
record (Python tests it for truthiness). `gameTime` stands for
`details.get("game_time", "")` produced by the common extractor. -/
structure FeedEvent where
  state : String
  statusName : String
  detail : String
  shortDetail : String
  period : Option Int
  displayClock : Option String
  situation : Option Situation
  homeId : String
  awayId : String
  gameTime : String
deriving Repr, DecidableEq

/-- The football-specific fields that `Football._extract_game_details` adds to
the details dict (lines 138-149). -/
structure FootballDetails where
  period : Int
  period_text : String
  clock : String
  home_timeouts : Int
  away_timeouts : Int
  down_distance_text : Option String
  is_redzone : Option Bool
  possession : Option String
  possession_indicator : Option String
  scoring_event : String
deriving Repr, DecidableEq

namespace Football

/-- The guard `if situation and status["type"]["state"] == "in"` (line 82):
the situation record, but only for events whose status state is `"in"`. -/
def inPlaySituation (ev : FeedEvent) : Option Situation :=
  if ev.state == "in" then ev.situation else none

/-- Scoring-event detection (lines 88-106): scan the lowered long detail text
through the three keyword groups, then the lowered short detail text.  Note
that the short-text PAT branch (line 105) checks only `"extra point"` and
`"pat"`. -/
def scoringEventOf (detail shortDetail : String) : String :=
  let d := lowerStr detail
  let sd := lowerStr shortDetail
  if strHas d "touchdown" || strHas d "td" then "TOUCHDOWN"
  else if strHas d "field goal" || strHas d "fg" then "FIELD GOAL"
  else if strHas d "extra point" || strHas d "pat" || strHas d "point after" then "PAT"
  else if strHas sd "touchdown" || strHas sd "td" then "TOUCHDOWN"
  else if strHas sd "field goal" || strHas sd "fg" then "FIELD GOAL"
  else if strHas sd "extra point" || strHas sd "pat" then "PAT"
  else ""

/-- Period text (lines 120-136). -/
def periodTextOf (ev : FeedEvent) : String :=
  let period := ev.period.getD 0
  if ev.state == "in" then
    if period == 0 then "Start"
    else if period == 1 then "Q1"
    else if period == 2 then "Q2"
    else if period == 3 then "Q3"
    else if period == 4 then "Q4"
    else if period > 4 then "OT"
    else ""
  else if ev.state == "halftime" || ev.statusName == "STATUS_HALFTIME" then "HALF"
  else if ev.state == "post" then
    if period > 4 then "Final/OT" else "Final"
  else if ev.state == "pre" then ev.gameTime
  else ""

/-- The football-specific part of `Football._extract_game_details`
(lines 74-149).  Every field mirrors the Python assignment for it, with the
initial values of lines 74-80 used whenever the in-play guard fails. -/
def extract_game_details (ev : FeedEvent) : FootballDetails :=
  { period := ev.period.getD 0
    period_text := periodTextOf ev
    clock := ev.displayClock.getD "0:00"
    home_timeouts :=
      match inPlaySituation ev with
      | some s => s.homeTimeouts.getD 3
      | none => 0
    away_timeouts :=
      match inPlaySituation ev with
      | some s => s.awayTimeouts.getD 3
      | none => 0
    down_distance_text :=
      match inPlaySituation ev with
      | some s => s.shortDownDistanceText
      | none => some ""
    is_redzone :=
      match inPlaySituation ev with
      | some s => s.isRedZone
      | none => some false
    possession :=
      match inPlaySituation ev with
      | some s => s.possession
      | none => none
    possession_indicator :=
      match inPlaySituation ev with
      | some s =>
        match s.possession with
        | some p =>
          if p == "" then none
          else if p == ev.homeId then some "home"
          else if p == ev.awayId then some "away"
          else none
        | none => none
      | none => none
    scoring_event :=
      match inPlaySituation ev with
      | some _ => scoringEventOf ev.detail ev.shortDetail
      | none => "" }

end Football

/-! ### The tracked Game record (keys of the details dict that
`FootballLive.update` reads and writes) -/

structure Game where
  id : String
  home_id : String
  away_id : String
  home_abbr : String
  away_abbr : String
  start_time_utc : Option Int
  is_live : Bool
  is_halftime : Bool
  is_final : Bool
  period : Int
  period_text : String
  clock : String
  status_text : String
  down_distance_text : Option String
  possession : Option String
  scoring_event : String
deriving Repr, DecidableEq

/-! ### The scoring tracker (`self.last_scoring_events`, a Python dict) -/

/-- `self.last_scoring_events`: game id → last seen scoring label. -/
abbrev Tracker := List (String × String)

/-- Python `d.get(k)` / `d[k]`. -/
def trkGet (t : Tracker) (k : String) : Option String :=
  (t.find? (fun p => p.1 == k)).map (·.2)

/-- Python `del d[k]` (a no-op when `k` is absent, matching the guarded
`if game_id in self.last_scoring_events: del ...`). -/
def trkErase (t : Tracker) (k : String) : Tracker :=
  t.filter (fun p => !(p.1 == k))

/-- Python `d[k] = v`. -/
def trkInsert (t : Tracker) (k v : String) : Tracker :=
  (k, v) :: trkErase t k

/-! ### Configuration values consumed by `FootballLive` -/

structure Cfg where
  test_mode : Bool
  update_interval : Int
  no_data_interval : Int
  game_display_duration : Int
  scoring_alerts_enabled : Bool
  favorite_teams : List String
  show_favorite_teams_only : Bool
deriving Repr, DecidableEq

/-! ### The mutable per-tick state of `FootballLive` -/

structure LiveState where
  last_update : Int
  live_games : List Game
  current_game : Option Game
  current_game_index : Nat
  last_game_switch : Int
  last_scoring_events : Tracker
deriving Repr, DecidableEq

/-- A scoring alert `(teamAbbr, eventKind)` as passed to
`_trigger_scoring_animation`. -/
abbrev Alert := String × String

/-- The observable outcome of one `update()` call: the new state, the scoring
alerts triggered, whether the fetch cycle ran, and whether the
"could not fetch" warning was logged. -/
structure TickOut where
  state : LiveState
  alerts : List Alert
  fetched : Bool
  warned : Bool
deriving Repr, DecidableEq

namespace FootballLive

/-- One step of the loop body of `_check_scoring_events` (lines 193-229),
folded over the live games list. -/
def checkGame (cfg : Cfg) (acc : Tracker × List Alert) (game : Game) :
    Tracker × List Alert :=
  let tr := acc.1
  let alerts := acc.2
  if game.scoring_event == "" || game.id == "" then
    (trkErase tr game.id, alerts)
  else if trkGet tr game.id == some game.scoring_event then
    (tr, alerts)
  else
    let tr2 := trkInsert tr game.id game.scoring_event
    let team : Option String :=
      if game.possession == some game.home_id then some (upperStr game.home_abbr)
      else if game.possession == some game.away_id then some (upperStr game.away_abbr)
      else none
    match team with
    | none => (tr2, alerts)
    | some t =>
      if t == "" then (tr2, alerts)
      else if (cfg.favorite_teams.map upperStr).contains t then
        (tr2, alerts ++ [(t, game.scoring_event)])
      else (tr2, alerts)

/-- `FootballLive._check_scoring_events` (lines 188-229): returns the updated
tracker together with the alerts fired, in game order. -/
def check_scoring_events (cfg : Cfg) (tr : Tracker) (games : List Game) :
    Tracker × List Alert :=
  if cfg.scoring_alerts_enabled then games.foldl (checkGame cfg) (tr, [])
  else (tr, [])

/-! ### Reconciliation (lines 430-468) -/

/-- The sort key of line 436: `g.get('start_time_utc') or datetime.now(...)`. -/
def sortKey (now : Int) (g : Game) : Int := g.start_time_utc.getD now

/-- Sorting the candidate list by start time ascending (line 436); a stable
sort, as Python's `sorted`. -/
def sortGames (now : Int) (l : List Game) : List Game :=
  List.insertionSort (fun a b => sortKey now a ≤ sortKey now b) l

/-- `temp_game_dict.get(i)` for `temp_game_dict = {g['id']: g for g in cands}`
(line 454): the last candidate carrying id `i`, if any. -/
def lookupCand (cands : List Game) (i : String) : Option Game :=
  cands.reverse.find? (fun g => g.id == i)

/-- Python set equality `{...} == {...}` on id sets (line 435). -/
def sameIdSet (xs ys : List String) : Bool :=
  xs.all (fun i => ys.contains i) && ys.all (fun i => xs.contains i)

/-- The "Update game list and current game" block of `FootballLive.update`
(lines 430-468), for a candidate list `cands` (`new_live_games`). -/
def reconcile (now : Int) (st : LiveState) (cands : List Game) : LiveState :=
  if cands.isEmpty then
    { st with live_games := [], current_game := none, current_game_index := 0 }
  else if sameIdSet (cands.map (·.id)) (st.live_games.map (·.id)) then
    { st with
      live_games := st.live_games.map (fun g => (lookupCand cands g.id).getD g)
      current_game := st.current_game.map (fun cg => (lookupCand cands cg.id).getD cg) }
  else
    let sorted := sortGames now cands
    match st.current_game with
    | none =>
      { st with live_games := sorted, current_game_index := 0,
                current_game := sorted.head?, last_game_switch := now }
    | some cg =>
      if (cands.map (·.id)).contains cg.id then
        let i := sorted.findIdx (fun g => g.id == cg.id)
        match sorted[i]? with
        | some g =>
          { st with live_games := sorted, current_game_index := i,
                    current_game := some g }
        | none =>
          { st with live_games := sorted, current_game_index := 0,
                    current_game := sorted.head?, last_game_switch := now }
      else
        { st with live_games := sorted, current_game_index := 0,
                  current_game := sorted.head?, last_game_switch := now }

/-! ### Test-mode clock simulation (lines 352-388) -/

/-- `map(int, clock.split(':'))` unpacked into two values; `none` models the
`ValueError` path. -/
def parseClock (s : String) : Option (Int × Int) :=
  match s.splitOn ":" with
  | [a, b] =>
    match a.toInt?, b.toInt? with
    | some m, some sec => some (m, sec)
    | _, _ => none
  | _ => none

/-- Python `f"{n:02d}"` for the clock digits. -/
def fmt2 (n : Int) : String :=
  if 0 ≤ n ∧ n < 10 then "0" ++ toString n else toString n

/-- `['1st','2nd','3rd','4th'][seconds % 4]`. -/
def downOrdinal (n : Int) : String :=
  if n == 0 then "1st" else if n == 1 then "2nd" else if n == 2 then "3rd"
  else "4th"

/-- The simulated clock tick applied to `self.current_game` in test mode
(lines 355-388). -/
def simulateClock (g : Game) : Game :=
  match parseClock g.clock with
  | none => g
  | some (m0, s0) =>
    let s1 := s0 - 1
    let step :=
      if s1 < 0 then
        let m1 := m0 - 1
        if m1 < 0 then
          if g.period < 4 then
            let p := g.period + 1
            let pt :=
              if p == 1 then "Q1" else if p == 2 then "Q2"
              else if p == 3 then "Q3" else if p == 4 then "Q4"
              else g.period_text
            ((15 : Int), (0 : Int), { g with period := p, period_text := pt })
          else
            ((0 : Int), (0 : Int),
              { g with is_live := false, is_final := true, period_text := "Final" })
        else (m1, (59 : Int), g)
      else (m0, s1, g)
    let m := step.1
    let s := step.2.1
    let g1 := step.2.2
    let g2 := { g1 with clock := fmt2 m ++ ":" ++ fmt2 s }
    let g3 :=
      if s % 15 == 0 then
        { g2 with down_distance_text :=
                    some (downOrdinal (s % 4) ++ " & " ++ toString (s % 10 + 1)) }
      else g2
    { g3 with status_text := g3.period_text ++ " " ++ g3.clock }

/-! ### The full update tick (lines 325-483) -/

/-- The candidate filter of lines 395-404: keep live/halftime games, and
favorites only when so configured. -/
def filterCandidates (cfg : Cfg) (events : List Game) : List Game :=
  events.filter (fun g =>
    (g.is_live || g.is_halftime) &&
    (if cfg.show_favorite_teams_only then
        cfg.favorite_teams.contains g.home_abbr ||
        cfg.favorite_teams.contains g.away_abbr
      else true))

/-- The adaptive poll interval of line 342. -/
def intervalOf (cfg : Cfg) (st : LiveState) : Int :=
  if st.live_games.isEmpty && !cfg.test_mode then cfg.no_data_interval
  else cfg.update_interval

/-- The game-switching block of lines 479-483. -/
def applyRotation (cfg : Cfg) (now : Int) (st : LiveState) : LiveState :=
  if cfg.test_mode = false ∧ 1 < st.live_games.length ∧
      cfg.game_display_duration ≤ now - st.last_game_switch then
    let i := (st.current_game_index + 1) % st.live_games.length
    { st with current_game_index := i, current_game := st.live_games[i]?,
              last_game_switch := now }
  else st

/-- The fetch-success body of the gated update (lines 393-468, before the
game-switching block): filter candidates, reconcile, check scoring events.
Returns the pre-rotation state and the alerts fired. -/
def fetchPhase (cfg : Cfg) (st1 : LiveState) (now : Int) (events : List Game) :
    LiveState × List Alert :=
  let cands := filterCandidates cfg events
  let st2 := reconcile now st1 cands
  let checked :=
    if cands.isEmpty then (st2.last_scoring_events, ([] : List Alert))
    else check_scoring_events cfg st2.last_scoring_events st2.live_games
  ({ st2 with last_scoring_events := checked.1 }, checked.2)

/-- One call of `FootballLive.update` (lines 325-483).  `fetch = none` models
`_fetch_data()` returning no data or data without an `"events"` key; `fetch =
some events` supplies the already-extracted event records, which `update`
filters to live/halftime (and favorite) games before reconciling. -/
def updateTick (cfg : Cfg) (st : LiveState) (now : Int)
    (fetch : Option (List Game)) : TickOut :=
  if now - st.last_update < intervalOf cfg st then
    { state := st, alerts := [], fetched := false, warned := false }
  else
    let st1 := { st with last_update := now }
    if cfg.test_mode then
      let st2 :=
        match st1.current_game with
        | some g =>
          if g.is_live then { st1 with current_game := some (simulateClock g) }
          else st1
        | none => st1
      { state := applyRotation cfg now st2, alerts := [], fetched := false,
        warned := false }
    else
      match fetch with
      | none =>
        let st2 :=
          if st1.live_games.isEmpty then { st1 with current_game := none }
          else st1
        { state := applyRotation cfg now st2, alerts := [], fetched := true,
          warned := true }
      | some events =>
        let fp := fetchPhase cfg st1 now events
        { state := applyRotation cfg now fp.1, alerts := fp.2,
          fetched := true, warned := false }

end FootballLive

/-! ### Spec-side definitions

These follow the wording of the specification (not the code), for the
refinement-style claims about scoring-event detection. -/

namespace Football

/-- The keyword groups scanned against the long detail text, in priority
order, per the spec wording. -/
def specGroupsLong : List (List String × String) :=
  [(["touchdown", "td"], "TOUCHDOWN"),
   (["field goal", "fg"], "FIELD GOAL"),
   (["extra point", "pat", "point after"], "PAT")]

/-- The keyword groups scanned against the short detail text: as the long
groups, except that the PAT group lacks `"point after"` (the amendment the
code forces on the claim). -/
def specGroupsShort : List (List String × String) :=
  [(["touchdown", "td"], "TOUCHDOWN"),
   (["field goal", "fg"], "FIELD GOAL"),
   (["extra point", "pat"], "PAT")]

/-- The label of the first keyword group, in priority order, with some
keyword occurring in `text`. -/
def firstGroupLabel (text : String) (groups : List (List String × String)) :
    Option String :=
  (groups.find? (fun gr => gr.1.any (fun k => strHas text k))).map (·.2)

/-- Spec-style scoring-event detection, amended to the code's short-text
groups: for an in-state event with a situation record, scan the lowered long
detail text through the groups, then the lowered short detail text; the first
match wins and a long-text match takes priority; otherwise the label is
empty. -/
def specScoringEvent (ev : FeedEvent) : String :=
  if ev.state = "in" ∧ ev.situation.isSome then
    match firstGroupLabel (lowerStr ev.detail) specGroupsLong with
    | some l => l
    | none =>
      match firstGroupLabel (lowerStr ev.shortDetail) specGroupsShort with
      | some l => l
      | none => ""
  else ""

end Football

/-! ### Claim-level specifications -/

open FootballLive in
/-- What claim C1 asserts of an identity-set-changing reconciliation of a
non-empty candidate list `cands`: the live set becomes a permutation of
`cands` that is sorted ascending by the start-time sort key (hence by
`start_time_utc` whenever every candidate carries one); a previous current
game whose id is still among the candidate ids keeps its id, with its index
re-resolved into the new list and the rotation clock untouched; otherwise the
current pointer is reset to index 0 and the rotation clock is reset to the
tick time. -/
def reconcileChangeSpec (now : Int) (st : LiveState) (cands : List Game) :
    Prop :=
  (reconcile now st cands).live_games.Perm cands ∧
  (reconcile now st cands).live_games.Pairwise
    (fun a b => sortKey now a ≤ sortKey now b) ∧
  ((∀ g ∈ cands, g.start_time_utc.isSome) →
    (reconcile now st cands).live_games.Pairwise
      (fun a b => a.start_time_utc.getD 0 ≤ b.start_time_utc.getD 0)) ∧
  (∀ cg, st.current_game = some cg →
    (cands.map (·.id)).contains cg.id = true →
    (reconcile now st cands).current_game_index <
      (reconcile now st cands).live_games.length ∧
    (reconcile now st cands).live_games[(reconcile now st cands).current_game_index]? =
      (reconcile now st cands).current_game ∧
    (∀ g, (reconcile now st cands).current_game = some g → g.id = cg.id) ∧
    (reconcile now st cands).last_game_switch = st.last_game_switch) ∧
  ((∀ cg, st.current_game = some cg →
      (cands.map (·.id)).contains cg.id = false) →
    (reconcile now st cands).current_game_index = 0 ∧
    (reconcile now st cands).current_game = (reconcile now st cands).live_games.head? ∧
    (reconcile now st cands).last_game_switch = now)

open FootballLive in
/-- What claim C5 asserts of a same-identity-set reconciliation of a
non-empty candidate list: the id ordering is unchanged; each position holds
the fresh candidate record for its id; the current pointer (index and
selected id), the rotation clock, the poll clock and the scoring tracker are
unchanged; and reconciling the same list again is a no-op. -/
def reconcileMergeSpec (now : Int) (st : LiveState) (cands : List Game) :
    Prop :=
  (reconcile now st cands).live_games.map (·.id) = st.live_games.map (·.id) ∧
  ((cands.map (·.id)).Nodup →
    ∀ (k : Nat) (c : Game), c ∈ cands →
    ∀ g : Game, st.live_games[k]? = some g → g.id = c.id →
      (reconcile now st cands).live_games[k]? = some c) ∧
  (reconcile now st cands).current_game_index = st.current_game_index ∧
  (reconcile now st cands).current_game.map (·.id) =
    st.current_game.map (·.id) ∧
  (reconcile now st cands).last_game_switch = st.last_game_switch ∧
  (reconcile now st cands).last_update = st.last_update ∧
  (reconcile now st cands).last_scoring_events = st.last_scoring_events ∧
  (∀ now2, reconcile now2 (reconcile now st cands) cands =
    reconcile now st cands)

/-- What the code actually does with the timeout fields (the amended claim
C7): inside an in-state event carrying a situation record the timeouts
default to 3 when the feed omits them and take the feed values otherwise;
for every other event both timeouts are 0. -/
def timeoutsSpec (ev : FeedEvent) : Prop :=
  (∀ s, ev.state = "in" → ev.situation = some s →
    (s.homeTimeouts = none →
      (Football.extract_game_details ev).home_timeouts = 3) ∧
    (s.awayTimeouts = none →
      (Football.extract_game_details ev).away_timeouts = 3) ∧
    (∀ n, s.homeTimeouts = some n →
      (Football.extract_game_details ev).home_timeouts = n) ∧
    (∀ n, s.awayTimeouts = some n →
      (Football.extract_game_details ev).away_timeouts = n)) ∧
  ((ev.state ≠ "in" ∨ ev.situation = none) →
    (Football.extract_game_details ev).home_timeouts = 0 ∧
    (Football.extract_game_details ev).away_timeouts = 0)

open FootballLive in
/-- What the code actually does with rotation (the amended claim C8): a tick
failing the poll gate changes nothing; the rotation step applied at the end
of every gated tick advances the pointer to `(index+1) mod N` and stamps the
rotation clock exactly when test mode is off, more than one game is tracked
and the elapsed time since the last switch reaches the display duration; it
never advances with at most one game, in test mode, or before the duration
elapses; and a gated non-test tick is exactly the fetch phase followed by the
rotation step. -/
def rotationSpec (cfg : Cfg) (st : LiveState) (now : Int)
    (fetch : Option (List Game)) : Prop :=
  (now - st.last_update < intervalOf cfg st →
    (updateTick cfg st now fetch).state = st) ∧
  (cfg.test_mode = false → 1 < st.live_games.length →
    cfg.game_display_duration ≤ now - st.last_game_switch →
    applyRotation cfg now st =
      { st with
        current_game_index :=
          (st.current_game_index + 1) % st.live_games.length,
        current_game :=
          st.live_games[(st.current_game_index + 1) % st.live_games.length]?,
        last_game_switch := now }) ∧
  (st.live_games.length ≤ 1 → applyRotation cfg now st = st) ∧
  (cfg.test_mode = true → applyRotation cfg now st = st) ∧
  (now - st.last_game_switch < cfg.game_display_duration →
    applyRotation cfg now st = st) ∧
  (cfg.test_mode = true →
    (updateTick cfg st now fetch).state.current_game_index =
      st.current_game_index ∧
    (updateTick cfg st now fetch).state.last_game_switch =
      st.last_game_switch) ∧
  (cfg.test_mode = false → intervalOf cfg st ≤ now - st.last_update →
    ∀ events, fetch = some events →
    (updateTick cfg st now fetch).state =
      applyRotation cfg now
        (fetchPhase cfg { st with last_update := now } now events).1)

open FootballLive in
/-- What the code actually does on a fetch-failure tick with at least one
tracked game (the amended claim C10): the tracked list, its ordering and the
scoring tracker are unchanged, the warning is logged, no alert fires, and the
tick is exactly the rotation step applied to the prior state (with only the
poll clock stamped) — so the current pointer is unchanged whenever the
rotation step does not fire. -/
def fetchFailSpec (cfg : Cfg) (st : LiveState) (now : Int) : Prop :=
  (updateTick cfg st now none).state.live_games = st.live_games ∧
  (updateTick cfg st now none).state.last_scoring_events =
    st.last_scoring_events ∧
  (updateTick cfg st now none).warned = true ∧
  (updateTick cfg st now none).alerts = [] ∧
  (updateTick cfg st now none).state =
    applyRotation cfg now { st with last_update := now } ∧
  (st.live_games.length ≤ 1 ∨
      now - st.last_game_switch < cfg.game_display_duration →
    (updateTick cfg st now none).state.current_game = st.current_game ∧
    (updateTick cfg st now none).state.current_game_index =
      st.current_game_index ∧
    (updateTick cfg st now none).state.last_game_switch =
      st.last_game_switch)

/-- A sequence of reconciling ticks `(now, candidates)` folded over the
registry state. -/
def reconcileTicks (st : LiveState) (ticks : List (Int × List Game)) :
    LiveState :=
  ticks.foldl (fun s t => FootballLive.reconcile t.1 s t.2) st

/-! ### Concrete fixtures for witnesses and counterexamples -/

/-- A situation record with every optional field absent. -/
def sitBare : Situation :=
  { shortDownDistanceText := none, isRedZone := none, possession := none,
    homeTimeouts := none, awayTimeouts := none }

/-- An in-state event whose short detail text contains `"point after"` and no
other scoring keyword. -/
def evPointAfter : FeedEvent :=
  { state := "in", statusName := "STATUS_IN_PROGRESS", detail := "",
    shortDetail := "Point After", period := some 2, displayClock := some "4:10",
    situation := some sitBare, homeId := "h1", awayId := "a1", gameTime := "" }

/-- A pre-game event with no situation record and no timeout fields. -/
def evPre : FeedEvent :=
  { state := "pre", statusName := "STATUS_SCHEDULED", detail := "",
    shortDetail := "", period := some 0, displayClock := none,
    situation := none, homeId := "h1", awayId := "a1",
    gameTime := "7:00 PM" }

/-- An in-state event with a situation record that omits both timeout
fields. -/
def evInNoTO : FeedEvent :=
  { state := "in", statusName := "STATUS_IN_PROGRESS", detail := "",
    shortDetail := "", period := some 1, displayClock := some "12:00",
    situation := some sitBare, homeId := "h1", awayId := "a1", gameTime := "" }

/-- A live game record with id `i`, start time `t`, scoring label `ev`, home
team `KC` holding possession. -/
def mkGame (i : String) (t : Option Int) (ev : String) : Game :=
  { id := i, home_id := "H" ++ i, away_id := "A" ++ i, home_abbr := "KC",
    away_abbr := "BUF", start_time_utc := t, is_live := true,
    is_halftime := false, is_final := false, period := 1, period_text := "Q1",
    clock := "10:00", status_text := "", down_distance_text := some "",
    possession := some ("H" ++ i), scoring_event := ev }

/-- The configuration used by the concrete scenarios: live mode, default
intervals (15 s / 300 s), 20 s display duration, alerts on, `KC` the only
favorite. -/
def cfgMain : Cfg :=
  { test_mode := false, update_interval := 15, no_data_interval := 300,
    game_display_duration := 20, scoring_alerts_enabled := true,
    favorite_teams := ["KC"], show_favorite_teams_only := false }

/-- The initial `FootballLive` state. -/
def stInit : LiveState :=
  { last_update := 0, live_games := [], current_game := none,
    current_game_index := 0, last_game_switch := 0,
    last_scoring_events := [] }

def gameA : Game := mkGame "1" (some 10) ""

def gameB : Game := mkGame "2" (some 20) ""

def gameC : Game := mkGame "3" (some 30) ""

/-- `gameA` with refreshed field values. -/
def gameAf : Game := { gameA with clock := "09:41", scoring_event := "" }

/-- `gameB` with refreshed field values. -/
def gameBf : Game := { gameB with clock := "08:12" }

/-- A second record carrying the same id as `gameA`. -/
def gameDup : Game := mkGame "1" (some 5) ""

/-- Two tracked games, current at index 0, all clocks at 0. -/
def stTwo : LiveState :=
  { last_update := 0, live_games := [gameA, gameB],
    current_game := some gameA, current_game_index := 0,
    last_game_switch := 0, last_scoring_events := [] }

/-- `stTwo` after a poll at time 100 (used to exhibit the poll gate blocking
rotation at time 105). -/
def stTwoLate : LiveState := { stTwo with last_update := 100 }

/-- One tracked game only. -/
def stOne : LiveState :=
  { last_update := 0, live_games := [gameA], current_game := some gameA,
    current_game_index := 0, last_game_switch := 0,
    last_scoring_events := [] }

/-- Two tracked games with current at index 1 (for the merge scenario). -/
def stMerge : LiveState :=
  { last_update := 0, live_games := [gameA, gameB],
    current_game := some gameB, current_game_index := 1,
    last_game_switch := 7, last_scoring_events := [] }

/-- A state tracking game id 1 with a recorded `TOUCHDOWN` label. -/
def stTracked : LiveState :=
  { last_update := 0, live_games := [mkGame "1" (some 5) "TOUCHDOWN"],
    current_game := some (mkGame "1" (some 5) "TOUCHDOWN"),
    current_game_index := 0, last_game_switch := 0,
    last_scoring_events := [("1", "TOUCHDOWN")] }

/-- The favorite-team game used in the scoring-alert scenario, with scoring
label `l`. -/
def gEvent (l : String) : Game := mkGame "7" (some 1) l

/-! ### Helper lemmas -/

theorem liveStateExt (a b : LiveState)
    (h1 : a.last_update = b.last_update) (h2 : a.live_games = b.live_games)
    (h3 : a.current_game = b.current_game)
    (h4 : a.current_game_index = b.current_game_index)
    (h5 : a.last_game_switch = b.last_game_switch)
    (h6 : a.last_scoring_events = b.last_scoring_events) : a = b := by
  cases a; cases b; simp_all

theorem trkGet_erase (t : Tracker) (k i : String) :
    trkGet (trkErase t k) i = if i = k then none else trkGet t i := by
  induction t with
  | nil => simp [trkGet, trkErase]
  | cons p rest ih =>
    by_cases hpk : p.1 = k <;> by_cases hpi : p.1 = i <;>
      simp_all [trkGet, trkErase, List.filter_cons, List.find?_cons]

theorem trkGet_insert (t : Tracker) (k v i : String) :
    trkGet (trkInsert t k v) i = if i = k then some v else trkGet t i := by
  by_cases hik : i = k
  · subst hik; simp [trkInsert, trkGet, List.find?_cons]
  · have hki : (k == i) = false := by
      simp only [beq_eq_false_iff_ne]
      exact fun h => hik h.symm
    have h2 := trkGet_erase t k i
    simp only [trkInsert, trkGet, List.find?_cons, hki, if_neg hik] at h2 ⊢
    exact h2

namespace FootballLive

theorem lookupCand_id (cands : List Game) (i : String) (g : Game)
    (h : lookupCand cands i = some g) : g.id = i := by
  have hp := List.find?_some h
  simpa [beq_iff_eq] using hp

theorem find?_id_unique (l : List Game) (c : Game)
    (hnd : (l.map (·.id)).Nodup) (hc : c ∈ l) :
    l.find? (fun g => g.id == c.id) = some c := by
  induction l with
  | nil => cases hc
  | cons a rest ih =>
    rcases List.mem_cons.mp hc with rfl | hmem
    · simp [List.find?_cons]
    · have ha : ¬(a.id == c.id) = true := by
        intro hbeq
        have : a.id = c.id := by simpa [beq_iff_eq] using hbeq
        have : c.id ∈ rest.map (·.id) := List.mem_map.mpr ⟨c, hmem, rfl⟩
        simp_all [List.nodup_cons]
      have hnd' : (rest.map (·.id)).Nodup := (List.nodup_cons.mp hnd).2
      simp [List.find?_cons, ha, ih hnd' hmem]

theorem lookupCand_of_mem (cands : List Game) (c : Game)
    (hnd : (cands.map (·.id)).Nodup) (hc : c ∈ cands) :
    lookupCand cands c.id = some c := by
  unfold lookupCand
  apply find?_id_unique
  · rw [List.map_reverse]
    exact List.nodup_reverse.mpr hnd
  · exact List.mem_reverse.mpr hc

theorem refresh_id (cands : List Game) (g : Game) :
    ((lookupCand cands g.id).getD g).id = g.id := by
  cases h : lookupCand cands g.id with
  | none => simp
  | some c => simp [lookupCand_id cands g.id c h]

theorem refresh_idem (cands : List Game) (g : Game) :
    (lookupCand cands ((lookupCand cands g.id).getD g).id).getD
        ((lookupCand cands g.id).getD g) =
      (lookupCand cands g.id).getD g := by
  cases h : lookupCand cands g.id with
  | none => simp [h]
  | some c =>
    have hid : c.id = g.id := lookupCand_id cands g.id c h
    simp [hid, h]

theorem reconcile_tracker (now : Int) (st : LiveState) (cands : List Game) :
    (reconcile now st cands).last_scoring_events = st.last_scoring_events := by
  unfold reconcile
  dsimp only
  repeat' split
  all_goals rfl

theorem reconcile_last_update (now : Int) (st : LiveState)
    (cands : List Game) :
    (reconcile now st cands).last_update = st.last_update := by
  unfold reconcile
  dsimp only
  repeat' split
  all_goals rfl

theorem applyRotation_live_games (cfg : Cfg) (now : Int) (st : LiveState) :
    (applyRotation cfg now st).live_games = st.live_games := by
  unfold applyRotation
  split <;> rfl

theorem applyRotation_tracker (cfg : Cfg) (now : Int) (st : LiveState) :
    (applyRotation cfg now st).last_scoring_events =
      st.last_scoring_events := by
  unfold applyRotation
  split <;> rfl

theorem applyRotation_last_update (cfg : Cfg) (now : Int) (st : LiveState) :
    (applyRotation cfg now st).last_update = st.last_update := by
  unfold applyRotation
  split <;> rfl

theorem sortGames_perm (now : Int) (l : List Game) :
    (sortGames now l).Perm l :=
  List.perm_insertionSort _ l

instance sortRelTotal (now : Int) :
    IsTotal Game (fun a b => sortKey now a ≤ sortKey now b) :=
  ⟨fun _ _ => Int.le_total _ _⟩

instance sortRelTrans (now : Int) :
    IsTrans Game (fun a b => sortKey now a ≤ sortKey now b) :=
  ⟨fun _ _ _ hab hbc => le_trans hab hbc⟩

theorem sortGames_pairwise (now : Int) (l : List Game) :
    (sortGames now l).Pairwise (fun a b => sortKey now a ≤ sortKey now b) :=
  List.sorted_insertionSort _ l

end FootballLive

namespace Football

theorem firstGroupLabel_three (t : String) (g1 g2 g3 : List String × String) :
    firstGroupLabel t [g1, g2, g3] =
      if g1.1.any (fun k => strHas t k) then some g1.2
      else if g2.1.any (fun k => strHas t k) then some g2.2
      else if g3.1.any (fun k => strHas t k) then some g3.2
      else none := by
  unfold firstGroupLabel
  by_cases h1 : g1.1.any (fun k => strHas t k) <;>
    by_cases h2 : g2.1.any (fun k => strHas t k) <;>
    by_cases h3 : g3.1.any (fun k => strHas t k) <;>
    simp [List.find?_cons, h1, h2, h3]

theorem scoringEventOf_eq_scan (d sd : String) :
    scoringEventOf d sd =
      (match firstGroupLabel (lowerStr d) specGroupsLong with
       | some l => l
       | none =>
         match firstGroupLabel (lowerStr sd) specGroupsShort with
         | some l => l
         | none => "") := by
  unfold scoringEventOf specGroupsLong specGroupsShort
  rw [firstGroupLabel_three, firstGroupLabel_three]
  simp only [List.any_cons, List.any_nil, Bool.or_false, Bool.or_assoc]
  by_cases h1 : (strHas (lowerStr d) "touchdown" || strHas (lowerStr d) "td") = true <;>
    by_cases h2 : (strHas (lowerStr d) "field goal" || strHas (lowerStr d) "fg") = true <;>
    by_cases h3 : (strHas (lowerStr d) "extra point" ||
      (strHas (lowerStr d) "pat" || strHas (lowerStr d) "point after")) = true <;>
    by_cases h4 : (strHas (lowerStr sd) "touchdown" || strHas (lowerStr sd) "td") = true <;>
    by_cases h5 : (strHas (lowerStr sd) "field goal" || strHas (lowerStr sd) "fg") = true <;>
    by_cases h6 : (strHas (lowerStr sd) "extra point" || strHas (lowerStr sd) "pat") = true <;>
    simp [h1, h2, h3, h4, h5, h6]

end Football

/-- Claim C6 (amended): for every feed event with status state `"in"` that
carries a situation record, `scoring_event` is produced by scanning the
lowered long detail text and then the lowered short detail text for the first
matching keyword group in priority order, where the long-text PAT group is
`{"extra point","pat","point after"}` but the short-text PAT group is only
`{"extra point","pat"}`; any long-text match takes priority, exactly one
label is produced, and for other events the label is empty.  In particular an
in-state event whose short detail text contains `"point after"` and no other
keyword yields the empty label, not `PAT`. -/
theorem C6_scoring_event_detection :
    (∀ ev, (Football.extract_game_details ev).scoring_event =
      Football.specScoringEvent ev) ∧
    (Football.extract_game_details evPointAfter).scoring_event = "" := by
  constructor
  · intro ev
    simp only [Football.extract_game_details, Football.specScoringEvent,
      Football.inPlaySituation]
    by_cases hst : ev.state = "in"
    · cases hsit : ev.situation with
      | none => simp [hst, hsit]
      | some s => simp [hst, hsit, Football.scoringEventOf_eq_scan]
    · have hb : (ev.state == "in") = false := by
        simp only [beq_eq_false_iff_ne]
        exact hst
      simp [hb, hst]
  · decide

/-- Claim C6 counterexample: `evPointAfter` is an in-state event with a
situation record whose short detail text contains `"point after"` and none of
the other scoring keywords, yet the extractor produces the empty label rather
than `PAT` as the claim requires. -/
theorem C6_counterexample :
    evPointAfter.state = "in" ∧
    evPointAfter.situation.isSome = true ∧
    strHas (lowerStr evPointAfter.shortDetail) "point after" = true ∧
    (["touchdown", "td", "field goal", "fg", "extra point", "pat"].all
      (fun k => !(strHas (lowerStr evPointAfter.shortDetail) k))) = true ∧
    evPointAfter.detail = "" ∧
    (Football.extract_game_details evPointAfter).scoring_event ≠ "PAT" := by
  decide

/-- Claim C7 (amended): for every extracted feed event, `home_timeouts` and
`away_timeouts` default to 3 only when the status state is `"in"` and a
situation record is present but omits the corresponding field, and equal the
feed-supplied values when it supplies them; for every event whose state is
not `"in"` or that carries no situation record, both timeouts are 0. -/
theorem C7_timeout_defaults : ∀ ev, timeoutsSpec ev := by
  intro ev
  constructor
  · intro s hst hsit
    have hip : Football.inPlaySituation ev = some s := by
      simp [Football.inPlaySituation, hst, hsit]
    refine ⟨?_, ?_, ?_, ?_⟩
    · intro h; simp [Football.extract_game_details, hip, h]
    · intro h; simp [Football.extract_game_details, hip, h]
    · intro n h; simp [Football.extract_game_details, hip, h]
    · intro n h; simp [Football.extract_game_details, hip, h]
  · intro h
    have hip : Football.inPlaySituation ev = none := by
      rcases h with h | h
      · have hb : (ev.state == "in") = false := by
          simp only [beq_eq_false_iff_ne]
          exact h
        simp [Football.inPlaySituation, hb]
      · simp [Football.inPlaySituation, h]
    simp [Football.extract_game_details, hip]

/-- Witness for C7: an in-state event with a situation record omitting the
timeout fields extracts with three home timeouts. -/
theorem C7_timeout_defaults_witness :
    (Football.extract_game_details evInNoTO).home_timeouts = 3 :=
  ((C7_timeout_defaults evInNoTO).1 sitBare rfl rfl).1 rfl

/-- Claim C7 counterexample: a pre-state event without a situation record
(so the feed omits the timeout fields) extracts with zero timeouts, not the
claimed default of 3. -/
theorem C7_counterexample :
    evPre.state ≠ "in" ∧ evPre.situation = none ∧
    (Football.extract_game_details evPre).home_timeouts = 0 ∧
    (Football.extract_game_details evPre).away_timeouts = 0 ∧
    (0 : Int) ≠ 3 := by
  decide

namespace FootballLive

theorem checkGame_tracker_other (cfg : Cfg) (acc : Tracker × List Alert)
    (game : Game) (i : String) (h : i ≠ game.id) :
    trkGet (checkGame cfg acc game).1 i = trkGet acc.1 i := by
  unfold checkGame
  dsimp only
  repeat' split
  all_goals simp [trkGet_erase, trkGet_insert, h]

theorem foldl_checkGame_other (cfg : Cfg) (games : List Game) :
    ∀ (acc : Tracker × List Alert) (i : String), i ∉ games.map (·.id) →
    trkGet (games.foldl (checkGame cfg) acc).1 i = trkGet acc.1 i := by
  induction games with
  | nil => intro acc i _; rfl
  | cons g rest ih =>
    intro acc i h
    have h' : ¬(i = g.id ∨ i ∈ rest.map (·.id)) := by
      simpa [List.mem_cons] using h
    push_neg at h'
    simp only [List.foldl_cons]
    rw [ih _ i h'.2, checkGame_tracker_other cfg acc g i h'.1]

theorem foldl_checkGame_cleared (cfg : Cfg) :
    ∀ (games : List Game) (acc : Tracker × List Alert) (g : Game),
    (games.map (·.id)).Nodup → g ∈ games → g.scoring_event = "" →
    trkGet (games.foldl (checkGame cfg) acc).1 g.id = none := by
  intro games
  induction games with
  | nil => intro acc g _ hg; cases hg
  | cons a rest ih =>
    intro acc g hnd hmem hev
    simp only [List.foldl_cons]
    rcases List.mem_cons.mp hmem with rfl | hmem'
    · have h1 : (checkGame cfg acc g).1 = trkErase acc.1 g.id := by
        unfold checkGame
        simp [hev]
      have h2 : g.id ∉ rest.map (·.id) := (List.nodup_cons.mp hnd).1
      rw [foldl_checkGame_other cfg rest _ g.id h2, h1, trkGet_erase]
      simp
    · exact ih _ g (List.nodup_cons.mp hnd).2 hmem' hev

end FootballLive

/-- Claim C3: with scoring alerts enabled, for a game whose possession
resolves to the configured favorite team `KC`, the `scoring_event` sequence
`"" → TOUCHDOWN → TOUCHDOWN → ""` across checked ticks fires exactly one
alert — on the first non-empty transition — and the tracker entry is removed
on the tick where the label returns to empty (so the post-clear tracker
equals the pre-trigger tracker, making a later re-trigger of the same label a
new alert); in general a game whose tracked label equals its current
non-empty label produces no alert and no tracker change. -/
theorem C3_alert_dedup :
    (∀ (cfg : Cfg) (tr : Tracker) (g : Game),
      cfg.scoring_alerts_enabled = true → g.scoring_event ≠ "" →
      g.id ≠ "" → trkGet tr g.id = some g.scoring_event →
      FootballLive.check_scoring_events cfg tr [g] = (tr, [])) ∧
    FootballLive.check_scoring_events cfgMain [] [gEvent ""] = ([], []) ∧
    FootballLive.check_scoring_events cfgMain [] [gEvent "TOUCHDOWN"] =
      ([("7", "TOUCHDOWN")], [("KC", "TOUCHDOWN")]) ∧
    FootballLive.check_scoring_events cfgMain [("7", "TOUCHDOWN")]
      [gEvent "TOUCHDOWN"] = ([("7", "TOUCHDOWN")], []) ∧
    FootballLive.check_scoring_events cfgMain [("7", "TOUCHDOWN")]
      [gEvent ""] = ([], []) := by
  refine ⟨?_, by decide, by decide, by decide, by decide⟩
  intro cfg tr g hEn hev hid htr
  have hbev : (g.scoring_event == "") = false := by
    simp only [beq_eq_false_iff_ne]
    exact hev
  have hbid : (g.id == "") = false := by
    simp only [beq_eq_false_iff_ne]
    exact hid
  simp [FootballLive.check_scoring_events, FootballLive.checkGame, hEn, hbev,
    hbid, htr]

/-- Witness for C3: a game whose tracked label equals its current label
produces no alert and leaves the tracker unchanged. -/
theorem C3_alert_dedup_witness :
    FootballLive.check_scoring_events cfgMain [("7", "TOUCHDOWN")]
      [gEvent "TOUCHDOWN"] = ([("7", "TOUCHDOWN")], []) :=
  C3_alert_dedup.1 cfgMain [("7", "TOUCHDOWN")] (gEvent "TOUCHDOWN") rfl
    (by decide) (by decide) (by decide)

/-- Claim C4 (amended): with scoring alerts enabled, the tracker entry for a
game id is destroyed exactly by a checked tick on which that game appears in
the LiveSet with an empty `scoring_event` label; entries whose ids are absent
from the checked LiveSet are left unchanged (removal of a game from the set
does not delete its entry), and a tick whose candidate list is empty leaves
the whole tracker untouched. -/
theorem C4_tracker_lifecycle :
    (∀ (cfg : Cfg) (tr : Tracker) (games : List Game) (i : String),
      cfg.scoring_alerts_enabled = true → i ∉ games.map (·.id) →
      trkGet (FootballLive.check_scoring_events cfg tr games).1 i =
        trkGet tr i) ∧
    (∀ (cfg : Cfg) (tr : Tracker) (games : List Game) (g : Game),
      cfg.scoring_alerts_enabled = true → (games.map (·.id)).Nodup →
      g ∈ games → g.scoring_event = "" →
      trkGet (FootballLive.check_scoring_events cfg tr games).1 g.id =
        none) ∧
    (∀ (cfg : Cfg) (st : LiveState) (now : Int),
      (FootballLive.updateTick cfg st now (some [])).state.last_scoring_events =
        st.last_scoring_events) := by
  refine ⟨?_, ?_, ?_⟩
  · intro cfg tr games i hEn hi
    simp only [FootballLive.check_scoring_events, hEn, if_pos]
    exact FootballLive.foldl_checkGame_other cfg games (tr, []) i hi
  · intro cfg tr games g hEn hnd hmem hev
    simp only [FootballLive.check_scoring_events, hEn, if_pos]
    exact FootballLive.foldl_checkGame_cleared cfg games (tr, []) g hnd hmem hev
  · intro cfg st now
    by_cases hgate : now - st.last_update < FootballLive.intervalOf cfg st
    · simp [FootballLive.updateTick, hgate]
    · by_cases htest : cfg.test_mode
      · cases hc : st.current_game with
        | none =>
          simp [FootballLive.updateTick, hgate, htest, hc,
            FootballLive.applyRotation_tracker]
        | some g =>
          by_cases hl : g.is_live <;>
            simp [FootballLive.updateTick, hgate, htest, hc, hl,
              FootballLive.applyRotation_tracker]
      · simp [FootballLive.updateTick, hgate, htest, FootballLive.fetchPhase,
          FootballLive.filterCandidates, FootballLive.applyRotation_tracker,
          FootballLive.reconcile_tracker]

/-- Witness for C4: checking a live set that no longer contains game id 1
leaves the tracked entry for id 1 unchanged. -/
theorem C4_tracker_lifecycle_witness :
    trkGet (FootballLive.check_scoring_events cfgMain [("1", "TOUCHDOWN")]
      [gameB]).1 "1" = trkGet [("1", "TOUCHDOWN")] "1" :=
  C4_tracker_lifecycle.1 cfgMain [("1", "TOUCHDOWN")] [gameB] "1" rfl
    (by decide)

/-- Claim C4 counterexample: after a gated tick whose candidate list no
longer contains game id 1 (whose label `TOUCHDOWN` is tracked), the LiveSet
holds only game 2 but the tracker entry for id 1 still remains, contradicting
the claimed destruction on game removal. -/
theorem C4_counterexample :
    (FootballLive.updateTick cfgMain stTracked 100
        (some [gameB])).state.live_games.map (·.id) = ["2"] ∧
    trkGet (FootballLive.updateTick cfgMain stTracked 100
        (some [gameB])).state.last_scoring_events "1" = some "TOUCHDOWN" := by
  decide

namespace FootballLive

theorem merge_ids (cands : List Game) (l : List Game) :
    (l.map (fun g => (lookupCand cands g.id).getD g)).map (·.id) =
      l.map (·.id) := by
  induction l with
  | nil => rfl
  | cons a t ih => simp [refresh_id, ih]

theorem reconcile_merge_def (now : Int) (st : LiveState) (cands : List Game)
    (h1 : cands.isEmpty = false)
    (h2 : sameIdSet (cands.map (·.id)) (st.live_games.map (·.id)) = true) :
    reconcile now st cands =
      { st with
        live_games :=
          st.live_games.map (fun g => (lookupCand cands g.id).getD g),
        current_game :=
          st.current_game.map (fun cg => (lookupCand cands cg.id).getD cg) } := by
  unfold reconcile
  rw [if_neg (by simp [h1]), if_pos h2]

theorem reconcile_games_changed (now : Int) (st : LiveState)
    (cands : List Game) (h1 : cands.isEmpty = false)
    (h2 : sameIdSet (cands.map (·.id)) (st.live_games.map (·.id)) = false) :
    (reconcile now st cands).live_games = sortGames now cands := by
  unfold reconcile
  rw [if_neg (by simp [h1]), if_neg (by simp [h2])]
  dsimp only
  cases hc : st.current_game with
  | none => rfl
  | some cg =>
    dsimp only
    by_cases hin : ((cands.map (·.id)).contains cg.id) = true
    · rw [if_pos hin]
      split <;> rfl
    · rw [if_neg hin]

theorem reconcile_nodup (now : Int) (st : LiveState) (cands : List Game)
    (hc : (cands.map (·.id)).Nodup)
    (hst : (st.live_games.map (·.id)).Nodup) :
    ((reconcile now st cands).live_games.map (·.id)).Nodup := by
  by_cases he : cands.isEmpty = true
  · unfold reconcile
    rw [if_pos he]
    simp
  · have h1 : cands.isEmpty = false := by
      revert he
      cases cands.isEmpty <;> simp
    by_cases hs : sameIdSet (cands.map (·.id)) (st.live_games.map (·.id)) = true
    · rw [reconcile_merge_def now st cands h1 hs]
      dsimp only
      rw [merge_ids]
      exact hst
    · have hs' : sameIdSet (cands.map (·.id)) (st.live_games.map (·.id)) = false := by
        revert hs
        cases sameIdSet (cands.map (·.id)) (st.live_games.map (·.id)) <;> simp
      rw [reconcile_games_changed now st cands h1 hs']
      have hperm : ((sortGames now cands).map (·.id)).Perm (cands.map (·.id)) :=
        (sortGames_perm now cands).map _
      exact hperm.nodup_iff.mpr hc

end FootballLive

/-- Claim C2 (amended): across every sequence of reconciling ticks whose
candidate lists each carry pairwise-distinct ids, starting from any state
whose LiveSet ids are distinct (in particular the initial empty state), the
LiveSet never contains two entries with the same id.  The restriction to
duplicate-free candidate lists is forced: the code copies the candidate list
into the LiveSet without deduplication. -/
theorem C2_no_duplicate_ids (ticks : List (Int × List Game))
    (hticks : ∀ t ∈ ticks, ((t.2).map (·.id)).Nodup) :
    ∀ st : LiveState, (st.live_games.map (·.id)).Nodup →
    ((reconcileTicks st ticks).live_games.map (·.id)).Nodup := by
  induction ticks with
  | nil => intro st h; exact h
  | cons t rest ih =>
    intro st h
    simp only [reconcileTicks, List.foldl_cons]
    exact ih (fun x hx => hticks x (List.mem_cons_of_mem t hx))
      (FootballLive.reconcile t.1 st t.2)
      (FootballLive.reconcile_nodup t.1 st t.2
        (hticks t (List.mem_cons_self t rest)) h)

/-- Witness for C2: two reconciling ticks with duplicate-free candidate
lists keep the LiveSet ids duplicate-free. -/
theorem C2_no_duplicate_ids_witness :
    ((reconcileTicks stInit
        [(0, [gameA, gameB]), (5, [gameC])]).live_games.map (·.id)).Nodup :=
  C2_no_duplicate_ids [(0, [gameA, gameB]), (5, [gameC])] (by decide) stInit
    (by decide)

/-- Claim C2 counterexample: a single reconciling tick whose candidate list
carries two records with the same id `"1"` puts both into the LiveSet, so the
invariant fails for arbitrary candidate lists. -/
theorem C2_counterexample :
    ¬ ((FootballLive.reconcile 0 stInit
        [gameA, gameDup]).live_games.map (·.id)).Nodup := by
  decide

namespace FootballLive

theorem reconcile_keep_current (now : Int) (st : LiveState)
    (cands : List Game) (cg : Game) (h1 : cands.isEmpty = false)
    (h2 : sameIdSet (cands.map (·.id)) (st.live_games.map (·.id)) = false)
    (hcg : st.current_game = some cg)
    (hin : (cands.map (·.id)).contains cg.id = true) :
    ∃ g,
      (sortGames now cands)[List.findIdx (fun x => x.id == cg.id)
        (sortGames now cands)]? = some g ∧
      g.id = cg.id ∧
      List.findIdx (fun x => x.id == cg.id) (sortGames now cands) <
        (sortGames now cands).length ∧
      reconcile now st cands =
        { st with
          live_games := sortGames now cands,
          current_game := some g,
          current_game_index :=
            List.findIdx (fun x => x.id == cg.id) (sortGames now cands) } := by
  have hex : ∃ x ∈ sortGames now cands, (x.id == cg.id) = true := by
    rcases List.contains_iff_exists_mem_beq.mp hin with ⟨a, ha, hbeq⟩
    rcases List.mem_map.mp ha with ⟨x, hx, rfl⟩
    have hxid : cg.id = x.id := beq_iff_eq.mp hbeq
    exact ⟨x, (sortGames_perm now cands).mem_iff.mpr hx, by simp [hxid]⟩
  have hlt : List.findIdx (fun x => x.id == cg.id) (sortGames now cands) <
      (sortGames now cands).length := List.findIdx_lt_length_of_exists hex
  have hsome : (sortGames now cands)[List.findIdx (fun x => x.id == cg.id)
      (sortGames now cands)]? = some ((sortGames now cands)[List.findIdx
      (fun x => x.id == cg.id) (sortGames now cands)]) :=
    List.getElem?_eq_getElem hlt
  have hpg : (((sortGames now cands)[List.findIdx (fun x => x.id == cg.id)
      (sortGames now cands)]).id == cg.id) = true :=
    @List.findIdx_getElem Game (fun x => x.id == cg.id) (sortGames now cands)
      hlt
  refine ⟨_, hsome, beq_iff_eq.mp hpg, hlt, ?_⟩
  unfold reconcile
  rw [if_neg (by simp [h1]), if_neg (by simp [h2]), hcg]
  dsimp only
  rw [if_pos hin, hsome]

theorem reconcile_reset_current (now : Int) (st : LiveState)
    (cands : List Game) (h1 : cands.isEmpty = false)
    (h2 : sameIdSet (cands.map (·.id)) (st.live_games.map (·.id)) = false)
    (hres : ∀ cg, st.current_game = some cg →
      (cands.map (·.id)).contains cg.id = false) :
    reconcile now st cands =
      { st with
        live_games := sortGames now cands,
        current_game := (sortGames now cands).head?,
        current_game_index := 0, last_game_switch := now } := by
  unfold reconcile
  rw [if_neg (by simp [h1]), if_neg (by simp [h2])]
  cases hc : st.current_game with
  | none => rfl
  | some cg =>
    dsimp only
    rw [if_neg (by rw [hres cg hc]; exact Bool.false_ne_true)]

end FootballLive

/-- Claim C1: on a reconciling tick with a non-empty candidate list whose id
set differs from the tracked id set, the LiveSet is replaced by the candidate
list sorted ascending by the start-time key (hence by `start_time_utc`
whenever every candidate carries one); if the previous current game's id is
among the new candidate ids, `current` is re-resolved to that same id at its
new index with the rotation clock untouched; otherwise `current` is reset to
index 0 and the rotation clock is reset to the tick time. -/
theorem C1_reconcile_identity_change (now : Int) (st : LiveState)
    (cands : List Game) (h1 : cands ≠ [])
    (h2 : FootballLive.sameIdSet (cands.map (·.id))
      (st.live_games.map (·.id)) = false) :
    reconcileChangeSpec now st cands := by
  have h1' : cands.isEmpty = false := List.isEmpty_eq_false.mpr h1
  have hge := FootballLive.reconcile_games_changed now st cands h1' h2
  refine ⟨?_, ?_, ?_, ?_, ?_⟩
  · rw [hge]
    exact FootballLive.sortGames_perm now cands
  · rw [hge]
    exact FootballLive.sortGames_pairwise now cands
  · intro hall
    rw [hge]
    refine List.Pairwise.imp_of_mem ?_ (FootballLive.sortGames_pairwise now cands)
    intro a b ha hb hr
    have hsa := hall a ((FootballLive.sortGames_perm now cands).mem_iff.mp ha)
    have hsb := hall b ((FootballLive.sortGames_perm now cands).mem_iff.mp hb)
    rcases Option.isSome_iff_exists.mp hsa with ⟨va, hva⟩
    rcases Option.isSome_iff_exists.mp hsb with ⟨vb, hvb⟩
    simp only [FootballLive.sortKey, hva, hvb, Option.getD_some] at hr ⊢
    exact hr
  · intro cg hcg hin
    obtain ⟨g, hsome, hid, hlt, hrec⟩ :=
      FootballLive.reconcile_keep_current now st cands cg h1' h2 hcg hin
    rw [hrec]
    dsimp only
    exact ⟨hlt, hsome, fun g' hg' => (Option.some_inj.mp hg') ▸ hid, rfl⟩
  · intro hres
    rw [FootballLive.reconcile_reset_current now st cands h1' h2 hres]
    exact ⟨rfl, rfl, rfl⟩

/-- Witness for C1: reconciling the tracked set `{1,2}` against candidates
`{3,2}` satisfies the identity-change specification. -/
theorem C1_reconcile_identity_change_witness :
    reconcileChangeSpec 99 stTwo [gameC, gameB] :=
  C1_reconcile_identity_change 99 stTwo [gameC, gameB] (by decide) (by decide)

namespace FootballLive

theorem merge_map_idem (cands : List Game) (l : List Game) :
    ((l.map (fun g => (lookupCand cands g.id).getD g)).map
        (fun g => (lookupCand cands g.id).getD g)) =
      l.map (fun g => (lookupCand cands g.id).getD g) := by
  induction l with
  | nil => rfl
  | cons a t ih => simp only [List.map_cons, refresh_idem, ih]

end FootballLive

/-- Claim C5: reconciling a non-empty candidate list whose id set equals the
tracked id set performs a field-level merge — each position of the existing
order is replaced by the fresh record for its id — while the id ordering, the
current pointer (index and selected id), the rotation clock, the poll clock
and the scoring tracker are unchanged, and reconciling the same candidate
list twice in a row changes nothing beyond the first field refresh. -/
theorem C5_reconcile_merge (now : Int) (st : LiveState) (cands : List Game)
    (h1 : cands ≠ [])
    (h2 : FootballLive.sameIdSet (cands.map (·.id))
      (st.live_games.map (·.id)) = true) :
    reconcileMergeSpec now st cands := by
  have h1' : cands.isEmpty = false := List.isEmpty_eq_false.mpr h1
  have hdef := FootballLive.reconcile_merge_def now st cands h1' h2
  have hids : (FootballLive.reconcile now st cands).live_games.map (·.id) =
      st.live_games.map (·.id) := by
    rw [hdef]
    dsimp only
    exact FootballLive.merge_ids cands st.live_games
  refine ⟨hids, ?_, ?_, ?_, ?_, ?_, ?_, ?_⟩
  · intro hnd k c hc g hg hid
    rw [hdef]
    dsimp only
    rw [List.getElem?_map, hg]
    have hl : FootballLive.lookupCand cands g.id = some c := by
      rw [hid]
      exact FootballLive.lookupCand_of_mem cands c hnd hc
    simp [hl]
  · rw [hdef]
  · rw [hdef]
    dsimp only
    cases hc : st.current_game with
    | none => rfl
    | some cg => simp [FootballLive.refresh_id]
  · rw [hdef]
  · rw [hdef]
  · rw [hdef]
  · intro now2
    have h2' : FootballLive.sameIdSet (cands.map (·.id))
        ((FootballLive.reconcile now st cands).live_games.map (·.id)) = true := by
      rw [hids]
      exact h2
    rw [FootballLive.reconcile_merge_def now2
      (FootballLive.reconcile now st cands) cands h1' h2']
    refine liveStateExt _ _ rfl ?_ ?_ rfl rfl rfl
    · show (FootballLive.reconcile now st cands).live_games.map _ =
        (FootballLive.reconcile now st cands).live_games
      rw [hdef]
      dsimp only
      exact FootballLive.merge_map_idem cands st.live_games
    · show (FootballLive.reconcile now st cands).current_game.map _ =
        (FootballLive.reconcile now st cands).current_game
      rw [hdef]
      dsimp only
      cases hc : st.current_game with
      | none => rfl
      | some cg => simp only [Option.map_some', FootballLive.refresh_idem]

/-- Witness for C5: merging fresh records for the same id set `{1,2}`
satisfies the merge specification. -/
theorem C5_reconcile_merge_witness :
    reconcileMergeSpec 50 stMerge [gameBf, gameAf] :=
  C5_reconcile_merge 50 stMerge [gameBf, gameAf] (by decide) (by decide)

/-- Claim C8 (amended): rotation is evaluated only inside the gated body of a
tick, where it advances the current pointer to `(index+1) mod N` and stamps
the rotation clock exactly when test mode is off, more than one game is
tracked and the elapsed time since the last switch reaches the display
duration; it never advances with at most one game, in test mode, or before
the duration elapses, and a tick failing the poll gate changes nothing at
all — so the advance conditions of the claim are necessary but not
sufficient on an arbitrary tick. -/
theorem C8_rotation_gating (cfg : Cfg) (st : LiveState) (now : Int)
    (fetch : Option (List Game)) : rotationSpec cfg st now fetch := by
  refine ⟨?_, ?_, ?_, ?_, ?_, ?_, ?_⟩
  · intro hgate
    simp [FootballLive.updateTick, hgate]
  · intro ht hlen hdur
    unfold FootballLive.applyRotation
    rw [if_pos ⟨ht, hlen, hdur⟩]
  · intro hlen
    unfold FootballLive.applyRotation
    rw [if_neg]
    rintro ⟨-, h2, -⟩
    omega
  · intro ht
    unfold FootballLive.applyRotation
    rw [if_neg]
    rintro ⟨h1, -, -⟩
    rw [ht] at h1
    cases h1
  · intro hdur
    unfold FootballLive.applyRotation
    rw [if_neg]
    rintro ⟨-, -, h3⟩
    omega
  · intro ht
    by_cases hgate : now - st.last_update < FootballLive.intervalOf cfg st
    · constructor <;> simp [FootballLive.updateTick, hgate]
    · have hrot : ∀ s : LiveState, FootballLive.applyRotation cfg now s = s := by
        intro s
        unfold FootballLive.applyRotation
        rw [if_neg]
        rintro ⟨h1, -, -⟩
        rw [ht] at h1
        cases h1
      cases hc : st.current_game with
      | none =>
        constructor <;> simp [FootballLive.updateTick, hgate, ht, hc, hrot]
      | some g =>
        by_cases hl : g.is_live <;>
          constructor <;>
          simp [FootballLive.updateTick, hgate, ht, hc, hl, hrot]
  · intro ht hgate events hfe
    subst hfe
    have hgate' : ¬ (now - st.last_update < FootballLive.intervalOf cfg st) := by
      omega
    simp [FootballLive.updateTick, hgate', ht]

/-- Witness for C8: with a single tracked game the rotation step leaves the
state unchanged. -/
theorem C8_rotation_gating_witness :
    FootballLive.applyRotation cfgMain 50 stOne = stOne :=
  (C8_rotation_gating cfgMain stOne 50 none).2.2.1 (by decide)

/-- Claim C8 counterexample: at time 105 the state `stTwoLate` (two live
games, test mode off, elapsed 105 since the last switch ≥ duration 20) meets
every advance condition of the claim, yet the current index stays 0: the
poll gate (105 - 100 < 15) blocks the whole gated body including rotation. -/
theorem C8_counterexample :
    cfgMain.test_mode = false ∧ 1 < stTwoLate.live_games.length ∧
    cfgMain.game_display_duration ≤ 105 - stTwoLate.last_game_switch ∧
    (FootballLive.updateTick cfgMain stTwoLate 105
        (some [gameA, gameB])).state.current_game_index =
      stTwoLate.current_game_index ∧
    stTwoLate.current_game_index ≠
      (stTwoLate.current_game_index + 1) % stTwoLate.live_games.length := by
  decide

/-- Claim C9: each tick uses the idle interval (`no_data_interval`, default
300 s) when the LiveSet is empty and test mode is off, and the short interval
(`update_interval`, default 15 s) otherwise; on a non-test tick the fetch
cycle runs exactly when `now - lastUpdate ≥ interval`, after which
`lastUpdate` is set to `now` and a gate-failing tick changes nothing; in the
concrete scenario (empty set, not test mode, `lastUpdate = 0`) no fetch
occurs at 200 s and a fetch occurs at 300 s. -/
theorem C9_poll_scheduling :
    (∀ (cfg : Cfg) (st : LiveState), st.live_games = [] →
      cfg.test_mode = false →
      FootballLive.intervalOf cfg st = cfg.no_data_interval) ∧
    (∀ (cfg : Cfg) (st : LiveState),
      st.live_games ≠ [] ∨ cfg.test_mode = true →
      FootballLive.intervalOf cfg st = cfg.update_interval) ∧
    (∀ (cfg : Cfg) (st : LiveState) (now : Int) (fetch : Option (List Game)),
      cfg.test_mode = false →
      ((FootballLive.updateTick cfg st now fetch).fetched = true ↔
        FootballLive.intervalOf cfg st ≤ now - st.last_update)) ∧
    (∀ (cfg : Cfg) (st : LiveState) (now : Int) (fetch : Option (List Game)),
      FootballLive.intervalOf cfg st ≤ now - st.last_update →
      (FootballLive.updateTick cfg st now fetch).state.last_update = now) ∧
    (∀ (cfg : Cfg) (st : LiveState) (now : Int) (fetch : Option (List Game)),
      now - st.last_update < FootballLive.intervalOf cfg st →
      FootballLive.updateTick cfg st now fetch =
        { state := st, alerts := [], fetched := false, warned := false }) ∧
    (FootballLive.updateTick cfgMain stInit 200 (some [])).fetched = false ∧
    (FootballLive.updateTick cfgMain stInit 300 (some [])).fetched = true := by
  refine ⟨?_, ?_, ?_, ?_, ?_, by decide, by decide⟩
  · intro cfg st h1 h2
    simp [FootballLive.intervalOf, h1, h2]
  · intro cfg st h
    rcases h with hne | ht
    · simp [FootballLive.intervalOf, List.isEmpty_eq_false.mpr hne]
    · simp [FootballLive.intervalOf, ht]
  · intro cfg st now fetch ht
    by_cases hgate : now - st.last_update < FootballLive.intervalOf cfg st
    · have hf : (FootballLive.updateTick cfg st now fetch).fetched = false := by
        simp [FootballLive.updateTick, hgate]
      rw [hf]
      simp only [Bool.false_eq_true, false_iff]
      omega
    · have hf : (FootballLive.updateTick cfg st now fetch).fetched = true := by
        cases fetch <;> simp [FootballLive.updateTick, hgate, ht]
      rw [hf]
      simp only [true_iff]
      omega
  · intro cfg st now fetch hle
    have hgate : ¬ (now - st.last_update < FootballLive.intervalOf cfg st) := by
      omega
    by_cases ht : cfg.test_mode
    · cases hc : st.current_game with
      | none =>
        simp [FootballLive.updateTick, hgate, ht, hc,
          FootballLive.applyRotation_last_update]
      | some g =>
        by_cases hl : g.is_live <;>
          simp [FootballLive.updateTick, hgate, ht, hc, hl,
            FootballLive.applyRotation_last_update]
    · cases fetch with
      | none =>
        by_cases hie : st.live_games.isEmpty <;>
          simp [FootballLive.updateTick, hgate, ht, hie,
            FootballLive.applyRotation_last_update]
      | some events =>
        simp [FootballLive.updateTick, hgate, ht, FootballLive.fetchPhase,
          FootballLive.applyRotation_last_update,
          FootballLive.reconcile_last_update]
  · intro cfg st now fetch hgate
    simp [FootballLive.updateTick, hgate]

/-- Witness for C9: in the concrete scenario a fetch at 300 s stamps the
poll clock. -/
theorem C9_poll_scheduling_witness :
    (FootballLive.updateTick cfgMain stInit 300 (some [])).state.last_update =
      300 :=
  C9_poll_scheduling.2.2.2.1 cfgMain stInit 300 (some []) (by decide)

/-- Claim C10 (amended): on a gated non-test tick whose fetch fails while at
least one game is tracked, the tracked game list, its ordering and the
scoring-tracker map are unchanged, the warning is logged, no alert fires and
no exception propagates (the tick is total); the whole tick amounts to the
rotation step applied to the prior state with only the poll clock stamped, so
the current index and current game are also unchanged whenever the rotation
step does not fire. -/
theorem C10_fetch_failure (cfg : Cfg) (st : LiveState) (now : Int)
    (ht : cfg.test_mode = false) (hne : st.live_games ≠ [])
    (hg : FootballLive.intervalOf cfg st ≤ now - st.last_update) :
    fetchFailSpec cfg st now := by
  have hgate : ¬ (now - st.last_update < FootballLive.intervalOf cfg st) := by
    omega
  have hie : st.live_games.isEmpty = false := List.isEmpty_eq_false.mpr hne
  have hstep : FootballLive.updateTick cfg st now none =
      { state :=
          FootballLive.applyRotation cfg now { st with last_update := now },
        alerts := [], fetched := true, warned := true } := by
    simp [FootballLive.updateTick, hgate, ht, hie]
  refine ⟨?_, ?_, ?_, ?_, ?_, ?_⟩
  · rw [hstep]
    dsimp only
    rw [FootballLive.applyRotation_live_games]
  · rw [hstep]
    dsimp only
    rw [FootballLive.applyRotation_tracker]
  · rw [hstep]
  · rw [hstep]
  · rw [hstep]
  · intro hnr
    have hno : FootballLive.applyRotation cfg now
        { st with last_update := now } = { st with last_update := now } := by
      unfold FootballLive.applyRotation
      rw [if_neg]
      rintro ⟨-, h2, h3⟩
      dsimp only at h2 h3
      rcases hnr with h | h
      · omega
      · omega
    rw [hstep]
    dsimp only
    rw [hno]
    exact ⟨rfl, rfl, rfl⟩

/-- Witness for C10: a gated fetch-failure tick at time 16 over two tracked
games satisfies the fetch-failure specification. -/
theorem C10_fetch_failure_witness :
    fetchFailSpec cfgMain stTwo 16 :=
  C10_fetch_failure cfgMain stTwo 16 rfl (by decide) (by decide)

/-- Claim C10 counterexample: a fetch-failure tick at time 100 over the
two-game state `stTwo` logs the warning but still advances the current index
from 0 to 1, because the rotation block runs after the failure handling —
contradicting the claim that the current index and current game stay at their
pre-tick values. -/
theorem C10_counterexample :
    stTwo.live_games ≠ [] ∧
    (FootballLive.updateTick cfgMain stTwo 100 none).warned = true ∧
    (FootballLive.updateTick cfgMain stTwo 100 none).state.current_game_index =
      1 ∧
    stTwo.current_game_index = 0 := by
  decide

end LEDMatrix
